import Mathlib

/-!
# Verification of the dataplicity-agent poll/sync engine

A shallow embedding of `src/dataplicity/client.py` (the `Client` class) and
the batched-RPC interface it consumes, together with theorems settling the
frozen claims about the spec.

The `jsonrpc` module (the `Batch` object, its exceptions) is not part of the
two source files; its behaviour is modelled from the spec (section 4.1),
marked `Modelled from the spec:` in the doc comments.  Everything else is
translated from `client.py` directly.
-/

namespace Dataplicity

/-- Python exceptions, split by how a bare `except Exception` treats them:
`exception kind msg` stands for any `Exception` subclass (`AttributeError`,
`JSONRPCError`, `ServerUnreachableError`, ...); `systemExit` and
`keyboardInterrupt` derive from `BaseException` only and are NOT caught by
`except Exception`. -/
inductive PyExc where
  | exception (kind : String) (msg : String)
  | systemExit
  | keyboardInterrupt
  deriving Repr, DecidableEq

/-- An `except Exception` clause catches this exception. -/
def PyExc.isOrdinary : PyExc → Bool
  | .exception _ _ => true
  | .systemExit => false
  | .keyboardInterrupt => false

/-- The Python values `_sync_meta` can return: `False` on the early return
(line 158 of client.py) and the implicit `None` of a function body that ends
without a `return` statement. -/
inductive PyVal where
  | none
  | bool (b : Bool)
  deriving Repr, DecidableEq

/-- Python truthiness, as used by `if not self._sync_meta(batch)`:
`None` is falsy, a bool is itself. -/
def PyVal.truthy : PyVal → Bool
  | .none => false
  | .bool b => b

/-- Log severities used by the `logging` calls in client.py. -/
inductive LogLevel where
  | debug
  | info
  | warning
  | error
  deriving Repr, DecidableEq

/-- One log record: severity plus the message template of the source call. -/
structure LogEntry where
  level : LogLevel
  msg : String
  deriving Repr, DecidableEq

/-- A remote-call fault as carried by `jsonrpc.JSONRPCError`
(`e.method`, `e.code`, `e.message` in `set_m2m_identity`). -/
structure Fault where
  method : String
  code : Int
  message : String
  deriving Repr, DecidableEq

/-- Modelled from the spec: after a batch is sent, each named call slot is
populated with a result value (abstracted to `ok`) or a recorded fault. -/
inductive SlotResult where
  | ok
  | fault (f : Fault)
  deriving Repr, DecidableEq

/-- The server's reply to a sent batch: the outcome of each result slot. -/
def Reply : Type := String → SlotResult

/-- One call queued by `batch.call_with_id(resultName, method, **args)`;
argument values are rendered as strings. -/
structure BatchCall where
  resultName : String
  method : String
  args : List (String × String)
  deriving Repr, DecidableEq

/-- Modelled from the spec: the `Batch` of the `jsonrpc` module — an ordered
sequence of calls, an `abandoned` flag, and a `sent` flag set only by a
successful dispatch on scope exit.  The spec's `DuplicateNameError` for
`call_with_id` cannot fire on any batch the client builds (each batch below
uses pairwise-distinct result names), so `callWithId` is total here. -/
structure Batch where
  calls : List BatchCall
  abandoned : Bool
  sent : Bool
  deriving Repr, DecidableEq

/-- A freshly opened batch (`with self.remote.batch() as batch`). -/
def Batch.new : Batch := ⟨[], false, false⟩

/-- `batch.call_with_id(name, method, **args)`: appends one call. -/
def Batch.callWithId (b : Batch) (name method : String)
    (args : List (String × String)) : Batch :=
  { b with calls := b.calls ++ [⟨name, method, args⟩] }

/-- `batch.abandon()`: marks the batch as not-to-be-sent (idempotent). -/
def Batch.abandon (b : Batch) : Batch :=
  { b with abandoned := true }

/-- Modelled from the spec: on normal scope exit the batch is sent as one
network request unless it was abandoned; `sent` records the dispatch. -/
def Batch.scopeExit (b : Batch) : Batch :=
  if b.abandoned then b else { b with sent := true }

/-- Does the batch hold a call whose result slot is named `name`? -/
def Batch.hasCall (b : Batch) (name : String) : Bool :=
  b.calls.any fun c => c.resultName = name

/-- Modelled from the spec: `batch.get_result(name)` on a sent batch returns
the slot's value or raises the slot's fault as a `JSONRPCError`; on an unsent
or abandoned batch it raises `NotSentError`. -/
def Batch.getResult (b : Batch) (reply : Reply) (name : String) :
    Except PyExc Unit :=
  if b.sent then
    match reply name with
    | .ok => .ok ()
    | .fault f => .error (.exception "JSONRPCError" f.message)
  else .error (.exception "NotSentError" name)

/-- Modelled from the spec: `batch.check(*names)` raises the first fault
among the named slots, succeeding only if every slot is fault-free. -/
def checkSlots (reply : Reply) : List String → Except Fault Unit
  | [] => .ok ()
  | n :: ns =>
    match reply n with
    | .ok => checkSlots reply ns
    | .fault f => .error f

/-- `disk_usage('/')`: total and used bytes of the root filesystem. -/
structure DiskUsage where
  total : Nat
  used : Nat
  deriving Repr, DecidableEq

/-- Outcome of `device_meta.get_meta()`: a meta dict (with `machine_type`
possibly `None` or empty, hence `Option`) or an exception. -/
inductive MetaResult where
  | ok (agentVersion : String) (machineType : Option String)
      (osVersion : String) (uname : String)
  | err
  deriving Repr, DecidableEq

/-- Python `x or 'other'` for a nullable string: `None` and the empty
string are falsy. -/
def pyOrOther : Option String → String
  | Option.none => "other"
  | Option.some s => if s = "" then "other" else s

namespace Client

/-- The instance attributes assigned by `Client.__init__` (lines 26-32) and
`Client._init` (lines 34-63) of client.py.  Neither `log` nor `disable_sync`
is ever assigned, and the class body defines only methods, so Python
attribute lookup of `self.log` or `self.disable_sync` raises
`AttributeError`. -/
def instanceAttrs : List String :=
  ["conf_path", "rpc_url", "_sync_lock", "_sent_meta", "exit_event",
   "conf", "remote", "serial", "auth_token", "poll_rate_seconds",
   "disk_poll_rate_seconds", "next_disk_poll_time", "m2m", "port_forward"]

/-- `self.<attr>` lookup succeeds exactly when the attribute was assigned. -/
def hasAttr (attr : String) : Bool :=
  instanceAttrs.contains attr

/-- The mutable state of a `Client` that the sync cycle reads and writes:
`_sent_meta`, the disk-poll due time and its interval.  Times are modelled
as rationals (`time.time()` is real-valued). -/
structure State where
  sentMeta : Bool
  nextDiskPollTime : ℚ
  diskPollRate : ℚ
  deriving Repr, DecidableEq

/-- `Client.__init__` / `Client._init`: `_sent_meta = False` (line 30) and
`next_disk_poll_time = time.time()` (line 52), i.e. the construction time;
`disk_poll_rate_seconds` comes from configuration (default 3600). -/
def State.init (constructionTime : ℚ) (diskPollRate : ℚ) : State :=
  { sentMeta := false
    nextDiskPollTime := constructionTime
    diskPollRate := diskPollRate }

/-- `Client._sync_meta(batch)` (lines 155-184): returns `False` when meta was
already sent; otherwise, on a collection error it logs and falls off the end,
and on success it queues the four `device.set_*` calls and falls off the end
— in both cases returning Python's implicit `None`.  The result pairs the
returned value with the updated batch. -/
def syncMeta (sentMeta : Bool) (meta : MetaResult) (batch : Batch) :
    PyVal × Batch :=
  if sentMeta then
    (.bool false, batch)
  else
    match meta with
    | .err => (.none, batch)
    | .ok agentVersion machineType osVersion uname =>
      (.none,
        ((((batch.callWithId "set_agent_version_result"
              "device.set_agent_version"
              [("agent_version", agentVersion)]).callWithId
            "set_machine_type_result" "device.set_machine_type"
            [("machine_type", pyOrOther machineType)]).callWithId
          "set_os_version_result" "device.set_os_version"
          [("os_version", osVersion)]).callWithId
        "set_uname_result" "device.set_uname"
        [("uname", uname)]))

/-- The four result-slot names checked by `Client._check_meta`. -/
def metaResultNames : List String :=
  ["set_agent_version_result", "set_machine_type_result",
   "set_os_version_result", "set_uname_result"]

/-- `Client._check_meta(batch)` (lines 186-201): early return when meta was
already sent; otherwise check the four slots — on success set `_sent_meta`
to `True`; on a fault, the handler evaluates `self.log`, an attribute that
does not exist, so an `AttributeError` is raised and the flag is untouched.
Returns the new flag value and the raised exception, if any. -/
def checkMeta (sentMeta : Bool) (reply : Reply) : Bool × Option PyExc :=
  if sentMeta then
    (sentMeta, Option.none)
  else
    match checkSlots reply metaResultNames with
    | .ok _ => (true, Option.none)
    | .error _ =>
      if hasAttr "log" then
        (sentMeta, Option.none)
      else
        (sentMeta,
          Option.some (.exception "AttributeError"
            "Client object has no attribute log"))

/-- `Client._sync` (lines 129-153): open a batch, queue the authenticate
call (`device.check_auth` with device class, serial, auth token, sync id),
run `_sync_meta`, and abandon whenever its return value is falsy; on scope
exit the batch is sent unless abandoned.  If the batch was sent, look up the
authenticate result (a fault raises `JSONRPCError`) and run `_check_meta`.
Returns the batch after scope exit, the new `_sent_meta` flag, and the
exception `_sync` raised, if any.  A whole-batch transport failure is, per
the spec, a reply in which every slot holds a transport-level fault. -/
def syncCycle (sentMeta : Bool) (serial authToken syncId : String)
    (meta : MetaResult) (reply : Reply) : Batch × Bool × Option PyExc :=
  let b0 := Batch.new.callWithId "authenticate_result" "device.check_auth"
    [("device_class", "tuxtunnel"), ("serial", serial),
     ("auth_token", authToken), ("sync_id", syncId)]
  let sm := syncMeta sentMeta meta b0
  let b1 := if sm.1.truthy then sm.2 else sm.2.abandon
  let b2 := b1.scopeExit
  if b2.sent then
    match b2.getResult reply "authenticate_result" with
    | .error e => (b2, sentMeta, Option.some e)
    | .ok _ =>
      let cm := checkMeta sentMeta reply
      (b2, cm.1, cm.2)
  else
    (b2, sentMeta, Option.none)

/-- `Client.sync` (lines 122-127): run `_sync` under the sync lock; a bare
`except Exception` catches every ordinary exception, logs
`"sync failed %s"` at error severity and returns normally; `SystemExit` and
`KeyboardInterrupt` are not `Exception` subclasses and pass through.  The
argument is the exception the body raised, if any. -/
def syncGuard (body : Option PyExc) : Option PyExc × List LogEntry :=
  match body with
  | Option.none => (Option.none, [])
  | Option.some e =>
    if e.isOrdinary then
      (Option.none, [⟨.error, "sync failed"⟩])
    else
      (Option.some e, [])

/-- `Client.disk_poll` (lines 82-101): when `now >= next_disk_poll_time`,
re-arm the due time to `now + disk_poll_rate_seconds`, measure disk usage
and open a batch holding an authenticate call and a `device.set_disk_space`
call, sent on scope exit.  Otherwise nothing happens.  Returns the new state
and the list of batches this invocation opened. -/
def diskPoll (st : State) (now : ℚ) (serial authToken : String)
    (disk : DiskUsage) : State × List Batch :=
  if st.nextDiskPollTime ≤ now then
    let b := ((Batch.new.callWithId "authenticate_result" "device.check_auth"
        [("device_class", "tuxtunnel"), ("serial", serial),
         ("auth_token", authToken)]).callWithId
      "set_disk_space_result" "device.set_disk_space"
      [("disk_capacity", toString disk.total),
       ("disk_used", toString disk.used)]).scopeExit
    ({ st with nextDiskPollTime := now + st.diskPollRate }, [b])
  else
    (st, [])

/-- Was a disk-usage report issued by a `disk_poll` invocation: some opened
batch carries the `set_disk_space` call and was dispatched. -/
def diskReportIssued (batches : List Batch) : Bool :=
  batches.any fun b => b.sent && b.hasCall "set_disk_space_result"

/-- `Client.poll` (lines 103-108): `disk_poll()` then `sync()`.  Returns the
new state and every batch opened during the invocation, in order (the disk
batch when due, then the sync batch). -/
def poll (st : State) (now : ℚ) (serial authToken syncId : String)
    (disk : DiskUsage) (meta : MetaResult) (reply : Reply) :
    State × List Batch :=
  let dp := diskPoll st now serial authToken disk
  let sc := syncCycle dp.1.sentMeta serial authToken syncId meta reply
  ({ dp.1 with sentMeta := sc.2.1 }, dp.2 ++ [sc.1])

/-- The sync cycles of one process lifetime: thread `_sent_meta` through
successive `_sync` invocations, one per list entry (its sync id, the
`get_meta` outcome, and the server's reply), collecting each cycle's batch. -/
def runSyncs (sentMeta : Bool) (serial authToken : String) :
    List (String × MetaResult × Reply) → Bool × List Batch
  | [] => (sentMeta, [])
  | (syncId, meta, reply) :: rest =>
    let c := syncCycle sentMeta serial authToken syncId meta reply
    let r := runSyncs c.2.1 serial authToken rest
    (r.1, c.1 :: r.2)

/-- The observed outcome of one `self.poll()` call inside `run_forever`. -/
inductive PollOutcome where
  | ok
  | raises (e : PyExc)
  deriving Repr, DecidableEq

/-- The try-body of `run_forever` (lines 67-70): poll once, then poll again
each time the exit-event wait times out.  The list holds the outcomes of the
successive poll calls; its end models the exit event being observed.
Returns the exception escaping the body, if any. -/
def runBody : List PollOutcome → Option PyExc
  | [] => Option.none
  | .ok :: rest => runBody rest
  | .raises e :: _ => Option.some e

/-- `Client.run_forever` (lines 65-80): `SystemExit` and
`KeyboardInterrupt` escaping the body are caught and turned into a plain
return; any other exception propagates.  `self.close()` appears only in the
`finally` clause, so every path through the function performs exactly one
close call.  Returns the escaping exception (if any) and the number of
`close()` calls. -/
def runForever (outcomes : List PollOutcome) : Option PyExc × Nat :=
  match runBody outcomes with
  | Option.none => (Option.none, 1)
  | Option.some .systemExit => (Option.none, 1)
  | Option.some .keyboardInterrupt => (Option.none, 1)
  | Option.some e => (Option.some e, 1)

/-- The transport-level outcome of the `set_m2m_identity` round trip, per
the spec's transport contract: both result slots resolve; `get_result`
raises a `JSONRPCError` for one slot; the server is unreachable
(`ServerUnreachableError`); or some other exception occurs. -/
inductive M2MOutcome where
  | success
  | rpcFault (f : Fault)
  | unreachable (msg : String)
  | otherError
  deriving Repr

/-- `Client.set_m2m_identity` (lines 203-242).  With no auth token the code
evaluates `self.disable_sync` — an attribute never assigned — so an
`AttributeError` escapes before any batch is opened.  With an auth token
the try block opens one batch (authenticate plus `m2m.associate`) and reads
both results: a `JSONRPCError` is logged at error severity with the fault's
method, code and message and `None` is returned; `ServerUnreachableError`
is logged at debug severity and the function falls off the end, returning
`None`; any other exception is logged at error severity and `None` is
returned; on success the `identity` argument is returned.  Returns the
function's outcome (value or escaping exception), the log records, and the
number of batches opened. -/
def setM2MIdentity (authToken : Option String) (identity : Option String)
    (outcome : M2MOutcome) :
    Except PyExc (Option String) × List LogEntry × Nat :=
  match authToken with
  | Option.none =>
    if hasAttr "disable_sync" then
      (.ok Option.none,
       [⟨.debug, "skipping m2m identity notify because we do not have an auth token"⟩], 0)
    else
      (.error (.exception "AttributeError"
        "Client object has no attribute disable_sync"), [], 0)
  | Option.some _ =>
    let lead : LogEntry := ⟨.debug, "notiying server of m2m identity"⟩
    match outcome with
    | .success =>
      (.ok identity, [lead, ⟨.debug, "server received m2m identity"⟩], 1)
    | .rpcFault f =>
      (.ok Option.none,
       [lead, ⟨.error, "unable to associate m2m identity " ++ f.method
          ++ "=" ++ toString f.code ++ ", " ++ f.message⟩], 1)
    | .unreachable m =>
      (.ok Option.none,
       [lead, ⟨.debug, "set m2m identity failed, " ++ m⟩], 1)
    | .otherError =>
      (.ok Option.none, [lead, ⟨.error, "unable to set m2m identity"⟩], 1)

end Client

/-- Did `device_meta.get_meta()` raise? -/
def MetaResult.isErr : MetaResult → Bool
  | .err => true
  | .ok _ _ _ _ => false

/-- A reply in which the server acknowledges every slot without fault. -/
def allOk : Reply := fun _ => SlotResult.ok

/-- A reply in which the `set_uname` slot holds a fault and every other
slot resolves. -/
def faultyReply : Reply := fun n =>
  if n = "set_uname_result" then
    SlotResult.fault ⟨"device.set_uname", -32000, "uname rejected"⟩
  else
    SlotResult.ok

/-- Did the call return (rather than raise)? -/
def returnsNormally : Except PyExc (Option String) → Bool
  | .ok _ => true
  | .error _ => false

/-! ## Helper lemmas shared between the claims -/

/-- `_sync_meta` returns `False` on the already-sent early return and
Python's implicit `None` on every other path: its return value is falsy in
every case. -/
theorem syncMeta_never_truthy (sentMeta : Bool) (meta : MetaResult)
    (batch : Batch) :
    ((Client.syncMeta sentMeta meta batch).1).truthy = false := by
  unfold Client.syncMeta
  cases sentMeta <;> cases meta <;> simp [PyVal.truthy]

/-- Consequently `_sync` always runs `batch.abandon()`, scope exit skips the
send, `batch.sent` stays false, and `_sync` returns with `_sent_meta`
unchanged and no exception. -/
theorem syncCycle_unsent (sentMeta : Bool) (serial authToken syncId : String)
    (meta : MetaResult) (reply : Reply) :
    ((Client.syncCycle sentMeta serial authToken syncId meta reply).1).sent
        = false
    ∧ ((Client.syncCycle sentMeta serial authToken syncId meta
        reply).1).abandoned = true
    ∧ (Client.syncCycle sentMeta serial authToken syncId meta reply).2
        = (sentMeta, Option.none) := by
  unfold Client.syncCycle
  cases sentMeta <;> cases meta <;>
    simp [Client.syncMeta, PyVal.truthy, Batch.abandon, Batch.scopeExit,
      Batch.callWithId, Batch.new]

/-- When meta was not yet sent and collection succeeds, the cycle's batch
carries all four `device.set_*` calls. -/
theorem syncCycle_queues_meta (serial authToken syncId : String)
    (av : String) (mt : Option String) (osv un : String) (reply : Reply) :
    (((Client.syncCycle false serial authToken syncId
        (.ok av mt osv un) reply).1).hasCall "set_agent_version_result"
      && ((Client.syncCycle false serial authToken syncId
        (.ok av mt osv un) reply).1).hasCall "set_machine_type_result"
      && ((Client.syncCycle false serial authToken syncId
        (.ok av mt osv un) reply).1).hasCall "set_os_version_result"
      && ((Client.syncCycle false serial authToken syncId
        (.ok av mt osv un) reply).1).hasCall "set_uname_result") = true := by
  simp [Client.syncCycle, Client.syncMeta, PyVal.truthy, Batch.abandon,
    Batch.scopeExit, Batch.hasCall, Batch.callWithId, Batch.new]

/-- `disk_poll` never touches `_sent_meta` or the interval. -/
theorem diskPoll_preserves_flag (st : Client.State) (now : ℚ)
    (serial authToken : String) (disk : DiskUsage) :
    ((Client.diskPoll st now serial authToken disk).1).sentMeta = st.sentMeta
    ∧ ((Client.diskPoll st now serial authToken disk).1).diskPollRate
        = st.diskPollRate := by
  unfold Client.diskPoll
  by_cases h : st.nextDiskPollTime ≤ now <;> simp [h]

/-! ## Claims -/

/-- C1: the claim says the sync batch is abandoned only on a hard metadata
failure and otherwise sent with the authenticate call on scope exit.  The
code abandons the batch on every path: `_sync_meta` returns `False` when
meta was already sent and `None` (implicitly) both on collection failure
and after queuing all four calls, so `if not self._sync_meta(batch):
batch.abandon()` always fires and no sync batch is ever sent. -/
theorem sync_batch_always_abandoned (sentMeta : Bool)
    (serial authToken syncId : String) (meta : MetaResult) (reply : Reply) :
    ((Client.syncCycle sentMeta serial authToken syncId meta
        reply).1).abandoned = true
    ∧ ((Client.syncCycle sentMeta serial authToken syncId meta
        reply).1).sent = false :=
  ⟨(syncCycle_unsent sentMeta serial authToken syncId meta reply).2.1,
   (syncCycle_unsent sentMeta serial authToken syncId meta reply).1⟩

/-- C2: the claim says that under all-success replies the four metadata
calls end up in exactly one sent batch per process lifetime, and under
fault replies they are re-queued until a cycle verifies fault-free.  In the
code no sync batch is ever sent (see C1), so over any sequence of cycles
starting from the initial `_sent_meta = False`: zero batches are sent,
the flag stays false forever, and whenever collection succeeds the four
calls are queued yet again — never reaching one sent batch even under
all-success replies. -/
theorem metadata_never_in_a_sent_batch (serial authToken : String)
    (cycles : List (String × MetaResult × Reply)) :
    ((Client.runSyncs false serial authToken cycles).2.filter
        (fun b => b.sent)).length = 0
    ∧ (Client.runSyncs false serial authToken cycles).1 = false
    ∧ (cycles.all (fun c => !c.2.1.isErr) = true →
        (Client.runSyncs false serial authToken cycles).2.all
          (fun b => b.hasCall "set_agent_version_result"
            && b.hasCall "set_machine_type_result"
            && b.hasCall "set_os_version_result"
            && b.hasCall "set_uname_result") = true) := by
  induction cycles with
  | nil => simp [Client.runSyncs]
  | cons c rest ih =>
    obtain ⟨sid, meta, reply⟩ := c
    have h := syncCycle_unsent false serial authToken sid meta reply
    simp only [Client.runSyncs, h.2.2]
    refine ⟨?_, ih.2.1, ?_⟩
    · simp only [List.filter_cons, h.1, Bool.false_eq_true, ite_false]
      exact ih.1
    · intro hall
      simp only [List.all_cons, Bool.and_eq_true] at hall
      simp only [List.all_cons, Bool.and_eq_true]
      refine ⟨?_, ih.2.2 hall.2⟩
      cases meta with
      | err => simp [MetaResult.isErr] at hall
      | ok av mt osv un =>
        have hq := syncCycle_queues_meta serial authToken sid av mt osv un
          reply
        simp only [Bool.and_eq_true] at hq
        exact ⟨⟨⟨hq.1.1.1, hq.1.1.2⟩, hq.1.2⟩, hq.2⟩

/-- Witness for C2: two cycles with successful collection and all-success
replies still produce zero sent batches, leave the flag false, and queue
the metadata calls in both cycles. -/
theorem metadata_never_in_a_sent_batch_witness :
    ((Client.runSyncs false "serial" "auth"
        [("aaaa", MetaResult.ok "ver" Option.none "os" "un", allOk),
         ("bbbb", MetaResult.ok "ver" Option.none "os" "un", allOk)]).2.all
      (fun b => b.hasCall "set_agent_version_result"
        && b.hasCall "set_machine_type_result"
        && b.hasCall "set_os_version_result"
        && b.hasCall "set_uname_result")) = true :=
  (metadata_never_in_a_sent_batch "serial" "auth"
    [("aaaa", MetaResult.ok "ver" Option.none "os" "un", allOk),
     ("bbbb", MetaResult.ok "ver" Option.none "os" "un", allOk)]).2.2
    (by decide)

/-- C3: the `_sent_meta` flag leaves `Sent` never: `_check_meta` returns
untouched when it is already true, and a whole poll invocation preserves a
true flag.  From false it moves to true exactly when the four metadata
slots all verify fault-free; on a fault the flag is untouched (the handler
raises instead of logging, see C10), and on collection or transport
failure the cycle never calls `_check_meta`, leaving it false. -/
theorem sent_meta_flag_transitions :
    (∀ reply : Reply, Client.checkMeta true reply = (true, Option.none))
    ∧ (∀ reply : Reply, (Client.checkMeta false reply).1 =
        (match checkSlots reply Client.metaResultNames with
          | .ok _ => true
          | .error _ => false))
    ∧ (∀ (st : Client.State) (now : ℚ) (serial authToken syncId : String)
        (disk : DiskUsage) (meta : MetaResult) (reply : Reply),
        st.sentMeta = true →
        ((Client.poll st now serial authToken syncId disk meta
            reply).1).sentMeta = true) := by
  refine ⟨?_, ?_, ?_⟩
  · intro reply
    simp [Client.checkMeta]
  · intro reply
    cases h : checkSlots reply Client.metaResultNames <;>
      simp [Client.checkMeta, h, Client.hasAttr, Client.instanceAttrs]
  · intro st now serial authToken syncId disk meta reply hst
    have hd := diskPoll_preserves_flag st now serial authToken disk
    have hs := syncCycle_unsent
      ((Client.diskPoll st now serial authToken disk).1).sentMeta
      serial authToken syncId meta reply
    simp only [Client.poll, hs.2.2]
    rw [hd.1, hst]

/-- Witness for C3: a poll invocation on a client whose flag is already
true leaves it true. -/
theorem sent_meta_flag_transitions_witness :
    ((Client.poll ⟨true, 0, 3600⟩ 5 "serial" "auth" "syncid" ⟨1000, 400⟩
        MetaResult.err allOk).1).sentMeta = true :=
  sent_meta_flag_transitions.2.2 ⟨true, 0, 3600⟩ 5 "serial" "auth" "syncid"
    ⟨1000, 400⟩ MetaResult.err allOk rfl

/-- C4: a disk-usage report is dispatched if and only if the current time
has reached the stored due time; on dispatch the due time becomes the
current time plus the configured interval (not the old due time plus the
interval); when not due, nothing changes and no batch is opened; and the
due time is initialized to the client's construction time. -/
theorem disk_poll_schedule (st : Client.State) (now : ℚ)
    (serial authToken : String) (disk : DiskUsage) (t rate : ℚ) :
    (Client.diskReportIssued
        (Client.diskPoll st now serial authToken disk).2 = true
      ↔ st.nextDiskPollTime ≤ now)
    ∧ (st.nextDiskPollTime ≤ now →
        ((Client.diskPoll st now serial authToken disk).1).nextDiskPollTime
          = now + st.diskPollRate)
    ∧ (¬ st.nextDiskPollTime ≤ now →
        (Client.diskPoll st now serial authToken disk).1 = st
          ∧ (Client.diskPoll st now serial authToken disk).2 = [])
    ∧ (Client.State.init t rate).nextDiskPollTime = t := by
  refine ⟨?_, ?_, ?_, rfl⟩ <;> by_cases h : st.nextDiskPollTime ≤ now <;>
    simp [Client.diskPoll, Client.diskReportIssued, h, Batch.scopeExit,
      Batch.callWithId, Batch.new, Batch.hasCall]

/-- Witness for C4: with the due time at construction time 0 and the clock
at 5, the report is issued and the due time is re-armed to 5 + 3600. -/
theorem disk_poll_schedule_witness :
    ((Client.diskPoll (Client.State.init 0 3600) 5 "serial" "auth"
        ⟨1000, 400⟩).1).nextDiskPollTime = 5 + (Client.State.init 0
          3600).diskPollRate :=
  (disk_poll_schedule (Client.State.init 0 3600) 5 "serial" "auth"
    ⟨1000, 400⟩ 0 3600).2.1 (by decide)

/-- C5 counterexample: the claim says one invocation of poll creates
exactly one Batch with the disk report queued in that same batch.  At a
client state whose disk report is due, poll opens two batches — disk_poll
opens and sends its own, then _sync opens another. -/
theorem poll_opens_two_batches :
    ((Client.poll (Client.State.init 0 3600) 0 "serial" "auth" "syncid"
        ⟨1000, 400⟩ (MetaResult.ok "ver" Option.none "os" "un")
        allOk).2).length ≠ 1 := by
  decide

/-- C5 amended: one poll invocation opens the sync batch plus, exactly when
the disk report is due, a separate disk batch; so two batches when due and
one otherwise.  The disk report is queued in disk_poll's own batch — which
carries its own authenticate call and is dispatched — never in the sync
batch. -/
theorem poll_batch_accounting (st : Client.State) (now : ℚ)
    (serial authToken syncId : String) (disk : DiskUsage)
    (meta : MetaResult) (reply : Reply) :
    (Client.poll st now serial authToken syncId disk meta reply).2
      = (Client.diskPoll st now serial authToken disk).2
        ++ [(Client.syncCycle st.sentMeta serial authToken syncId meta
              reply).1]
    ∧ ((Client.poll st now serial authToken syncId disk meta
        reply).2).length = (if st.nextDiskPollTime ≤ now then 2 else 1)
    ∧ ((Client.syncCycle st.sentMeta serial authToken syncId meta
        reply).1).hasCall "set_disk_space_result" = false
    ∧ (Client.diskPoll st now serial authToken disk).2.all
        (fun b => b.hasCall "set_disk_space_result"
          && b.hasCall "authenticate_result" && b.sent) = true := by
  have hd := diskPoll_preserves_flag st now serial authToken disk
  refine ⟨?_, ?_, ?_, ?_⟩
  · simp only [Client.poll, hd.1]
  · by_cases h : st.nextDiskPollTime ≤ now <;>
      simp [Client.poll, Client.diskPoll, h]
  · cases hm : st.sentMeta <;> cases meta <;>
      simp [Client.syncCycle, Client.syncMeta, PyVal.truthy, Batch.abandon,
        Batch.scopeExit, Batch.callWithId, Batch.new, Batch.hasCall]
  · by_cases h : st.nextDiskPollTime ≤ now <;>
      simp [Client.diskPoll, h, Batch.scopeExit, Batch.callWithId,
        Batch.new, Batch.hasCall]

/-- C6: `sync`'s bare `except Exception` catches every ordinary (non-exit)
exception raised by the cycle body, logs it at error severity, and returns
normally; composed with the actual `_sync` body nothing ever propagates
out of a call to sync. -/
theorem sync_swallows_ordinary_exceptions :
    (∀ e : PyExc, e.isOrdinary = true →
      Client.syncGuard (Option.some e)
        = (Option.none, [⟨LogLevel.error, "sync failed"⟩]))
    ∧ (∀ (sentMeta : Bool) (serial authToken syncId : String)
        (meta : MetaResult) (reply : Reply),
        (Client.syncGuard (Client.syncCycle sentMeta serial authToken
            syncId meta reply).2.2).1 = Option.none) := by
  constructor
  · intro e he
    cases e <;> simp_all [Client.syncGuard, PyExc.isOrdinary]
  · intro sentMeta serial authToken syncId meta reply
    have h := syncCycle_unsent sentMeta serial authToken syncId meta reply
    simp [h.2.2, Client.syncGuard]

/-- Witness for C6: an ordinary ValueError raised by the body is swallowed
and logged. -/
theorem sync_swallows_ordinary_exceptions_witness :
    Client.syncGuard (Option.some (PyExc.exception "ValueError" "boom"))
      = (Option.none, [⟨LogLevel.error, "sync failed"⟩]) :=
  sync_swallows_ordinary_exceptions.1
    (PyExc.exception "ValueError" "boom") rfl

/-- C7: `run_forever` converts a `SystemExit` or `KeyboardInterrupt`
escaping the poll loop into a plain return, and its `finally` clause calls
`close()` exactly once per invocation whatever way the loop exits. -/
theorem run_forever_clean_shutdown (outcomes : List Client.PollOutcome) :
    ((Client.runForever outcomes).2 = 1)
    ∧ (Client.runBody outcomes = Option.some PyExc.systemExit →
        Client.runForever outcomes = (Option.none, 1))
    ∧ (Client.runBody outcomes = Option.some PyExc.keyboardInterrupt →
        Client.runForever outcomes = (Option.none, 1)) := by
  refine ⟨?_, ?_, ?_⟩
  · cases h : Client.runBody outcomes with
    | none => simp [Client.runForever, h]
    | some e => cases e <;> simp [Client.runForever, h]
  · intro h
    simp [Client.runForever, h]
  · intro h
    simp [Client.runForever, h]

/-- Witness for C7: a run whose second poll raises SystemExit returns
normally with one close call. -/
theorem run_forever_clean_shutdown_witness :
    Client.runForever [Client.PollOutcome.ok,
        Client.PollOutcome.raises PyExc.systemExit] = (Option.none, 1) :=
  (run_forever_clean_shutdown [Client.PollOutcome.ok,
    Client.PollOutcome.raises PyExc.systemExit]).2.1 rfl

/-- C8: the claim says that with no auth token `set_m2m_identity` returns
`None` without opening a batch or touching the network.  The code instead
evaluates `self.disable_sync` — an attribute `Client` never assigns — and
raises `AttributeError` before returning anything; no batch is opened, so
only the zero-network-calls half of the claim holds. -/
theorem set_m2m_identity_no_auth_raises (identity : Option String)
    (outcome : Client.M2MOutcome) :
    (Client.setM2MIdentity Option.none identity outcome).1
      = .error (PyExc.exception "AttributeError"
          "Client object has no attribute disable_sync")
    ∧ (Client.setM2MIdentity Option.none identity outcome).2.2 = 0
    ∧ Client.hasAttr "disable_sync" = false := by
  refine ⟨?_, ?_, by decide⟩ <;>
    simp [Client.setM2MIdentity, Client.hasAttr, Client.instanceAttrs]

/-- C9: with an auth token configured, `set_m2m_identity` never raises: a
remote-call fault on either slot returns `None` with an error-severity log
carrying the fault's method, code and message; an unreachable server
returns `None` with only debug-severity logs; and success returns exactly
the identity argument. -/
theorem set_m2m_identity_with_auth (tok : String) (identity : Option String)
    (f : Fault) (m : String) :
    (∀ outcome : Client.M2MOutcome,
      returnsNormally
        (Client.setM2MIdentity (Option.some tok) identity outcome).1 = true)
    ∧ (Client.setM2MIdentity (Option.some tok) identity
        (.rpcFault f)).1 = .ok Option.none
    ∧ (Client.setM2MIdentity (Option.some tok) identity (.rpcFault f)).2.1
      = [⟨LogLevel.debug, "notiying server of m2m identity"⟩,
         ⟨LogLevel.error, "unable to associate m2m identity " ++ f.method
            ++ "=" ++ toString f.code ++ ", " ++ f.message⟩]
    ∧ (Client.setM2MIdentity (Option.some tok) identity
        (.unreachable m)).1 = .ok Option.none
    ∧ ((Client.setM2MIdentity (Option.some tok) identity
          (.unreachable m)).2.1.all
        (fun l => l.level == LogLevel.debug)) = true
    ∧ (Client.setM2MIdentity (Option.some tok) identity .success).1
      = .ok identity := by
  refine ⟨?_, rfl, rfl, rfl, rfl, rfl⟩
  intro outcome
  cases outcome <;> rfl

/-- C10: in `_check_meta`'s fault path the warning is logged through
`self.log`, an attribute the engine instance does not have, so with the
flag false and a faulty slot the call raises `AttributeError` instead of
logging and returning; being an ordinary exception, it is then caught by
sync's cycle-boundary catch-all. -/
theorem check_meta_fault_raises_attribute_error (reply : Reply) (f : Fault)
    (h : checkSlots reply Client.metaResultNames = .error f) :
    Client.checkMeta false reply
      = (false, Option.some (PyExc.exception "AttributeError"
          "Client object has no attribute log"))
    ∧ Client.hasAttr "log" = false
    ∧ (Client.syncGuard (Option.some (PyExc.exception "AttributeError"
        "Client object has no attribute log"))).1 = Option.none := by
  refine ⟨?_, by decide, rfl⟩
  simp [Client.checkMeta, h, Client.hasAttr, Client.instanceAttrs]

/-- Witness for C10: with a fault in the `set_uname` slot, `_check_meta`
on an unsent flag raises `AttributeError`. -/
theorem check_meta_fault_raises_attribute_error_witness :
    Client.checkMeta false faultyReply
      = (false, Option.some (PyExc.exception "AttributeError"
          "Client object has no attribute log")) :=
  (check_meta_fault_raises_attribute_error faultyReply
    ⟨"device.set_uname", -32000, "uname rejected"⟩ rfl).1

end Dataplicity
